import Mathlib

/-!
Shallow embedding of `simple-json-database` (src/index.js): a persistent
key-value store backed by one JSON file, with an in-memory mirror
(`this.data`), a process-wide instance registry (`instances`), immediate and
deferred (local) write operations, and a snapshot operation.

JavaScript runtime features are modelled explicitly:
* JS values are the inductive `Value` (numbers modelled as integers; the
  claims under verification only involve integer literals);
* property reads walk the prototype chain: own entries first, then the
  `Object.prototype` methods (modelled by `protoGet`);
* the filesystem is an explicit record `FS` of file contents and directories,
  with a write counter to count `fs.writeFileSync` calls;
* exceptions are modelled by `Except JsError`; a JS method that can throw
  after mutating state returns the mutated state together with the
  `Except` result, matching the heap state a caller observes on `catch`.
-/

namespace SimpleJsonDb

/-- JavaScript values as relevant to this program. `vUndef` is `undefined`,
`vFun` a (native) function value such as an `Object.prototype` method.
Numbers are modelled as integers. -/
inductive Value where
  | vUndef
  | vNull
  | vBool (b : Bool)
  | vNum (n : Int)
  | vStr (s : String)
  | vArr (elems : List Value)
  | vObj (entries : List (String × Value))
  | vFun (name : String)

/-- The JS `typeof` operator. `typeof null` and `typeof` of an array are both
the string "object" — this quirk is load-bearing for the shape check in
`fetchDataFromFile`. -/
def jsTypeof : Value → String
  | Value.vUndef => "undefined"
  | Value.vNull => "object"
  | Value.vBool _ => "boolean"
  | Value.vNum _ => "number"
  | Value.vStr _ => "string"
  | Value.vArr _ => "object"
  | Value.vObj _ => "object"
  | Value.vFun _ => "function"

/-- JS truthiness: `undefined`, `null`, `false`, `0` and `""` are falsy. -/
def truthy : Value → Bool
  | Value.vUndef => false
  | Value.vNull => false
  | Value.vBool b => b
  | Value.vNum n => !(n == 0)
  | Value.vStr s => !(s == "")
  | Value.vArr _ => true
  | Value.vObj _ => true
  | Value.vFun _ => true

/-- Association-list lookup (first entry with the given key). JS object
property tables have unique keys, which all operations below preserve. -/
def lookupA {α β : Type} [DecidableEq α] : List (α × β) → α → Option β
  | [], _ => none
  | (k, v) :: rest, key => if k = key then some v else lookupA rest key

/-- Association-list update: JS property assignment `obj[k] = v` updates an
existing entry in place (keeping its position) or appends a new entry. -/
def setA {α β : Type} [DecidableEq α] : List (α × β) → α → β → List (α × β)
  | [], key, v => [(key, v)]
  | (k, w) :: rest, key, v =>
    if k = key then (k, v) :: rest else (k, w) :: setA rest key v

/-- Association-list removal: JS `delete obj[k]` (no-op when absent). -/
def removeA {α β : Type} [DecidableEq α] : List (α × β) → α → List (α × β)
  | [], _ => []
  | (k, w) :: rest, key =>
    if k = key then rest else (k, w) :: removeA rest key

/-- Method names of `Object.prototype`, inherited by every plain object
created by `{}` literals or `JSON.parse`. -/
def objectPrototypeKeys : List String :=
  ["constructor", "hasOwnProperty", "isPrototypeOf", "propertyIsEnumerable",
   "toLocaleString", "toString", "valueOf"]

/-- Inherited-property lookup on the `Object.prototype` chain: the prototype
methods are function values, everything else is `undefined`. -/
def protoGet (key : String) : Value :=
  if objectPrototypeKeys.contains key then Value.vFun key else Value.vUndef

/-- JS property read on a plain object: own entries first, then the
prototype chain. -/
def propGet (entries : List (String × Value)) (key : String) : Value :=
  match lookupA entries key with
  | some v => v
  | none => protoGet key

/-- JS member access `v[key]` as used by this program. The claims only
exercise member access on plain objects; on other values the accesses
made by the program (e.g. `options.snapshots` when `options` is a number) yield
`undefined`. -/
def memberGet : Value → String → Value
  | Value.vObj entries, key => propGet entries key
  | _, _ => Value.vUndef

/-- Own-property test `Object.prototype.hasOwnProperty.call(v, key)` for the
values this program applies it to (the mirror). On a plain object it tests
membership in the own entry table only — inherited prototype properties are
not own properties. -/
def hasOwnProp : Value → String → Bool
  | Value.vObj entries, key => (lookupA entries key).isSome
  | _, _ => false

/-- Join strings with a separator (kernel-reducible replacement for
`String.intercalate`). -/
def joinSep (sep : String) : List String → String
  | [] => ""
  | [x] => x
  | x :: xs => x ++ sep ++ joinSep sep xs

/-- The character `{` (written via its code point). -/
def lbrace : Char := Char.ofNat 123

/-- The character `}` (written via its code point). -/
def rbrace : Char := Char.ofNat 125

/-- JSON string escaping for one character, as performed by
`JSON.stringify` (common escapes; exotic control characters do not occur in
the data the claims mention). -/
def escChar (c : Char) : String :=
  if c = '"' then "\\\""
  else if c = '\\' then "\\\\"
  else if c = '\n' then "\\n"
  else if c = '\t' then "\\t"
  else if c = '\r' then "\\r"
  else String.singleton c

/-- Quote a string as a JSON string literal. -/
def quoteJson (s : String) : String :=
  "\"" ++ String.join (s.toList.map escChar) ++ "\""

mutual
/-- The `JSON.stringify(value, null, gap)` serialization algorithm.
`gap` is the indent unit ("" for compact output, two spaces for the
`JSON.stringify(data, null, 2)` call in `saveDataToFile`); `indent` is the
accumulated indentation of the enclosing level. Returns `none` exactly when
`JSON.stringify` returns `undefined` (top-level `undefined` or function). -/
def jStr (gap indent : String) : Value → Option String
  | Value.vUndef => none
  | Value.vFun _ => none
  | Value.vNull => some "null"
  | Value.vBool true => some "true"
  | Value.vBool false => some "false"
  | Value.vNum n => some (toString n)
  | Value.vStr s => some (quoteJson s)
  | Value.vArr elems =>
    match elems with
    | [] => some "[]"
    | _ :: _ =>
      let items := jStrArr gap (indent ++ gap) elems
      if gap = "" then some ("[" ++ joinSep "," items ++ "]")
      else some ("[\n" ++ indent ++ gap ++
        joinSep (",\n" ++ indent ++ gap) items ++ "\n" ++ indent ++ "]")
  | Value.vObj entries =>
    let items := jStrEntries gap (indent ++ gap) entries
    match items with
    | [] => some "\x7b\x7d"
    | _ :: _ =>
      if gap = "" then some ("\x7b" ++ joinSep "," items ++ "\x7d")
      else some ("\x7b\n" ++ indent ++ gap ++
        joinSep (",\n" ++ indent ++ gap) items ++ "\n" ++ indent ++ "\x7d")

/-- Array elements under `JSON.stringify`: unserializable elements
(`undefined`, functions) are rendered as `null`. -/
def jStrArr (gap indent : String) : List Value → List String
  | [] => []
  | v :: rest => ((jStr gap indent v).getD "null") :: jStrArr gap indent rest

/-- Object entries under `JSON.stringify`: entries with unserializable
values are skipped; the key/value separator is ":" compactly and ": " when
indenting. -/
def jStrEntries (gap indent : String) : List (String × Value) → List String
  | [] => []
  | (k, v) :: rest =>
    match jStr gap indent v with
    | none => jStrEntries gap indent rest
    | some s =>
      (quoteJson k ++ (if gap = "" then ":" else ": ") ++ s) ::
        jStrEntries gap indent rest
end

/-- `JSON.stringify(value, null, 2)` — the exact call made by
`saveDataToFile` (src/index.js line 93). -/
def jsonStringify2 (v : Value) : Option String := jStr "  " "" v

/-- `JSON.stringify(value)` — compact serialization, the formatting the
spec says an un-`indented` store uses. -/
def jsonStringifyCompact (v : Value) : Option String := jStr "" "" v

/-- JSON whitespace test. -/
def isWsChar (c : Char) : Bool :=
  c = ' ' || c = '\n' || c = '\t' || c = '\r'

/-- Skip leading JSON whitespace. -/
def skipWs : List Char → List Char
  | [] => []
  | c :: cs => if isWsChar c then skipWs cs else c :: cs

/-- Decimal digit test. -/
def isDigitChar (c : Char) : Bool :=
  '0' ≤ c && c ≤ '9'

/-- Strip a literal prefix, or fail. -/
def stripLit : List Char → List Char → Option (List Char)
  | [], cs => some cs
  | _ :: _, [] => none
  | p :: ps, c :: cs => if c = p then stripLit ps cs else none

/-- Consume a maximal run of digits, accumulating their value. -/
def parseDigits : Nat → List Char → Nat → Nat × List Char
  | 0, cs, acc => (acc, cs)
  | Nat.succ _, [], acc => (acc, [])
  | Nat.succ fuel, c :: cs, acc =>
    if isDigitChar c then parseDigits fuel cs (acc * 10 + (c.toNat - 48))
    else (acc, c :: cs)

/-- Parse the body of a JSON string literal (after the opening quote),
handling the common escapes. The `\uXXXX` escape is not modelled; no claim
involves it. -/
def parseStrBody : Nat → List Char → List Char → Except String (String × List Char)
  | 0, _, _ => Except.error "JSON depth limit exceeded"
  | Nat.succ _, [], _ => Except.error "Unterminated string in JSON"
  | Nat.succ fuel, c :: cs, acc =>
    if c = '"' then Except.ok (acc.reverse.asString, cs)
    else if c = '\\' then
      match cs with
      | [] => Except.error "Unterminated string in JSON"
      | e :: cs2 =>
        if e = '"' then parseStrBody fuel cs2 ('"' :: acc)
        else if e = '\\' then parseStrBody fuel cs2 ('\\' :: acc)
        else if e = '/' then parseStrBody fuel cs2 ('/' :: acc)
        else if e = 'n' then parseStrBody fuel cs2 ('\n' :: acc)
        else if e = 't' then parseStrBody fuel cs2 ('\t' :: acc)
        else if e = 'r' then parseStrBody fuel cs2 ('\r' :: acc)
        else if e = 'b' then parseStrBody fuel cs2 (Char.ofNat 8 :: acc)
        else if e = 'f' then parseStrBody fuel cs2 (Char.ofNat 12 :: acc)
        else Except.error "Unsupported escape in JSON string"
    else parseStrBody fuel cs (c :: acc)

/-- Parse an unsigned JSON integer (JSON forbids a leading zero followed by
more digits). Fractions and exponents are not modelled — numbers in this
development are integers, and no claim involves a non-integer literal. -/
def parseNat : Nat → List Char → Except String (Nat × List Char)
  | 0, _ => Except.error "JSON depth limit exceeded"
  | Nat.succ fuel, cs =>
    match cs with
    | [] => Except.error "Unexpected end of JSON input"
    | c :: rest =>
      if !(isDigitChar c) then Except.error "Unexpected token in JSON"
      else if c = '0' then
        match rest with
        | c2 :: _ =>
          if isDigitChar c2 then Except.error "Unexpected number in JSON"
          else Except.ok (0, rest)
        | [] => Except.ok (0, rest)
      else
        Except.ok (parseDigits fuel rest (c.toNat - 48))

/-- Reject a fraction or exponent after an integer literal (see `parseNat`). -/
def checkNoFrac : List Char → Except String Unit
  | c :: _ =>
    if c = '.' || c = 'e' || c = 'E' then
      Except.error "Non-integer JSON numbers are not modelled"
    else Except.ok ()
  | [] => Except.ok ()

mutual
/-- Recursive-descent JSON value parser (the behaviour of `JSON.parse`),
driven by a fuel counter for structural termination. Every recursive call
consumes input, so the fuel chosen in `jsonParse` is always sufficient. -/
def parseVal : Nat → List Char → Except String (Value × List Char)
  | 0, _ => Except.error "JSON depth limit exceeded"
  | Nat.succ fuel, cs =>
    match skipWs cs with
    | [] => Except.error "Unexpected end of JSON input"
    | c :: rest =>
      if c = 'n' then
        match stripLit "ull".toList rest with
        | some cs2 => Except.ok (Value.vNull, cs2)
        | none => Except.error "Unexpected token in JSON"
      else if c = 't' then
        match stripLit "rue".toList rest with
        | some cs2 => Except.ok (Value.vBool true, cs2)
        | none => Except.error "Unexpected token in JSON"
      else if c = 'f' then
        match stripLit "alse".toList rest with
        | some cs2 => Except.ok (Value.vBool false, cs2)
        | none => Except.error "Unexpected token in JSON"
      else if c = '"' then
        match parseStrBody fuel rest [] with
        | Except.ok (s, cs2) => Except.ok (Value.vStr s, cs2)
        | Except.error e => Except.error e
      else if c = '-' then
        match parseNat fuel rest with
        | Except.ok (n, cs2) =>
          match checkNoFrac cs2 with
          | Except.ok _ => Except.ok (Value.vNum (-(n : Int)), cs2)
          | Except.error e => Except.error e
        | Except.error e => Except.error e
      else if isDigitChar c then
        match parseNat fuel (c :: rest) with
        | Except.ok (n, cs2) =>
          match checkNoFrac cs2 with
          | Except.ok _ => Except.ok (Value.vNum (n : Int), cs2)
          | Except.error e => Except.error e
        | Except.error e => Except.error e
      else if c = '[' then
        parseArrItems fuel rest true []
      else if c = lbrace then
        parseObjItems fuel rest true []
      else Except.error "Unexpected token in JSON"

/-- Elements of a JSON array, following the opening bracket (or a comma:
`first` records whether a closing bracket may come next without any
element, which is only the case directly after `[`). -/
def parseArrItems : Nat → List Char → Bool → List Value → Except String (Value × List Char)
  | 0, _, _, _ => Except.error "JSON depth limit exceeded"
  | Nat.succ fuel, cs, first, acc =>
    match skipWs cs with
    | [] => Except.error "Unexpected end of JSON input"
    | c :: rest =>
      if c = ']' && first then Except.ok (Value.vArr acc.reverse, rest)
      else
        match parseVal fuel (c :: rest) with
        | Except.error e => Except.error e
        | Except.ok (v, cs2) =>
          match skipWs cs2 with
          | [] => Except.error "Unexpected end of JSON input"
          | d :: cs3 =>
            if d = ',' then parseArrItems fuel cs3 false (v :: acc)
            else if d = ']' then Except.ok (Value.vArr (v :: acc).reverse, cs3)
            else Except.error "Unexpected token in JSON"

/-- Members of a JSON object, following the opening brace (or a comma).
Duplicate keys behave as in `JSON.parse`: the entry keeps the position of
its first occurrence and the value of its last (`setA`). -/
def parseObjItems : Nat → List Char → Bool → List (String × Value) → Except String (Value × List Char)
  | 0, _, _, _ => Except.error "JSON depth limit exceeded"
  | Nat.succ fuel, cs, first, acc =>
    match skipWs cs with
    | [] => Except.error "Unexpected end of JSON input"
    | c :: rest =>
      if c = rbrace && first then Except.ok (Value.vObj acc, rest)
      else if c = '"' then
        match parseStrBody fuel rest [] with
        | Except.error e => Except.error e
        | Except.ok (key, cs1) =>
          match skipWs cs1 with
          | ':' :: cs2 =>
            match parseVal fuel cs2 with
            | Except.error e => Except.error e
            | Except.ok (v, cs3) =>
              match skipWs cs3 with
              | [] => Except.error "Unexpected end of JSON input"
              | d :: cs4 =>
                if d = ',' then parseObjItems fuel cs4 false (setA acc key v)
                else if d = rbrace then Except.ok (Value.vObj (setA acc key v), cs4)
                else Except.error "Unexpected token in JSON"
          | _ => Except.error "Expected colon in JSON object"
      else Except.error "Unexpected token in JSON"
end

/-- The behaviour of `JSON.parse` on a whole input string: one value with
only whitespace around it. -/
def jsonParse (s : String) : Except String Value :=
  match parseVal (2 * s.length + 8) s.toList with
  | Except.error e => Except.error e
  | Except.ok (v, rest) =>
    if (skipWs rest).isEmpty then Except.ok v
    else Except.error "Unexpected non-whitespace character after JSON data"

/-- Split a character list at every occurrence of a separator, like the JS
`String.prototype.split` with a single-character separator. -/
def splitOnChar (sep : Char) : List Char → List (List Char)
  | [] => [[]]
  | c :: rest =>
    match splitOnChar sep rest with
    | [] => [[c]]
    | g :: gs => if c = sep then [] :: g :: gs else (c :: g) :: gs

/-- Node `path.basename`: the final path segment (after the last "/").
Modelled for forward-slash paths without a trailing slash, which covers
every path this development evaluates it on. -/
def basename (p : String) : String :=
  match (splitOnChar '/' p.toList).getLast? with
  | some seg => seg.asString
  | none => p

/-- Node `path.dirname`: everything before the last "/", with "." for a
bare file name. Modelled for forward-slash paths. -/
def dirname (p : String) : String :=
  match (splitOnChar '/' p.toList).dropLast with
  | [] => "."
  | [[]] => "/"
  | segs => joinSep "/" (segs.map List.asString)

/-- Node `path.join` of two segments (normalization of "." and ".." is not
modelled; no claim exercises it). -/
def joinPath (a b : String) : String :=
  if a = "" then b
  else if a.toList.getLast? = some '/' then a ++ b
  else a ++ "/" ++ b

/-- JS exceptions thrown by this program or by the runtime APIs it calls. -/
inductive JsError where
  | err (msg : String)
  | typeError (msg : String)
  | parseError (msg : String)
  | ioError (msg : String)
deriving DecidableEq

/-- The filesystem: file contents by path, the set of directories, and a
counter of completed `fs.writeFileSync` calls (used to state how many file
writes an operation performs). -/
structure FS where
  files : List (String × String)
  dirs : List String
  writeCount : Nat

/-- Node `fs.existsSync`: true for an existing file or directory. -/
def FS.existsSync (fs : FS) (p : String) : Bool :=
  (lookupA fs.files p).isSome || fs.dirs.contains p

/-- Node `fs.mkdirSync` (non-recursive). Failure when the parent directory
is missing is not modelled; no claim exercises it. -/
def FS.mkdirSync (fs : FS) (p : String) : FS :=
  { fs with dirs := p :: fs.dirs }

/-- Node `fs.readFileSync`: the file contents, or `none` for a missing
file (ENOENT). -/
def FS.readFileSync (fs : FS) (p : String) : Option String :=
  lookupA fs.files p

/-- Node `fs.writeFileSync`. Called with a string it overwrites the file
wholesale; called with `undefined` data — as `makeSnapshot` does, passing no
second argument — it throws `ERR_INVALID_ARG_TYPE` and writes nothing. -/
def FS.writeFileSync (fs : FS) (p : String) (data : Option String) : FS × Except JsError Unit :=
  match data with
  | none =>
    (fs, Except.error (JsError.typeError
      "The data argument must be of type string or an instance of Buffer, TypedArray, or DataView"))
  | some s =>
    ({ fs with files := setA fs.files p s, writeCount := fs.writeCount + 1 },
      Except.ok ())

/-- One `Database` instance (src/index.js class `Database`): the backing
file path, the options object passed at construction, and the in-memory
mirror `this.data`. In the partially constructed state that precedes
`this.data = {}` the mirror field is `undefined`. -/
structure Database where
  jsonFilePath : String
  options : Value
  data : Value

namespace Database

/-- `get(key)` (line 119): `this.data[key]`, a plain property read that
walks the prototype chain. -/
def get (db : Database) (key : String) : Value :=
  memberGet db.data key

/-- `has(key)` (line 205): `Object.prototype.hasOwnProperty.call(this.data,
key)` — own entries only. -/
def has (db : Database) (key : String) : Bool :=
  hasOwnProp db.data key

/-- The property assignment `this.data[key] = value` shared by `set` and
`setLocal`. The claims only mutate object mirrors. -/
def assignData (db : Database) (key : String) (value : Value) : Database :=
  match db.data with
  | Value.vObj entries => { db with data := Value.vObj (setA entries key value) }
  | other => { db with data := other }

/-- `setLocal(key, value)` (line 138): mutates the mirror only — the
function body contains no filesystem call. -/
def setLocal (db : Database) (key : String) (value : Value) : Database :=
  db.assignData key value

/-- `fetchDataFromFile()` (line 80): read the backing file, `JSON.parse`
it, and accept the result as the new mirror iff `typeof` of it is
"object". On a throw, the mirror keeps its previous state. -/
def fetchDataFromFile (db : Database) (fs : FS) : Database × Except JsError Unit :=
  match fs.readFileSync db.jsonFilePath with
  | none => (db, Except.error (JsError.ioError "ENOENT: no such file or directory"))
  | some contents =>
    match jsonParse contents with
    | Except.error e => (db, Except.error (JsError.parseError e))
    | Except.ok savedData =>
      if jsTypeof savedData = "object" then
        ({ db with data := savedData }, Except.ok ())
      else
        (db, Except.error (JsError.err "Data is not a valid object"))

/-- `saveDataToFile()` (line 92): `fs.writeFileSync(this.jsonFilePath,
JSON.stringify(this.data, null, 2), "utf-8")` — the indent argument is the
constant 2 regardless of any option. -/
def saveDataToFile (db : Database) (fs : FS) : FS × Except JsError Unit :=
  fs.writeFileSync db.jsonFilePath (jsonStringify2 db.data)

/-- `makeSnapshot(folderPath)` (line 100): ensure the folder exists, derive
`snapshot-<base name without extension>-<Date.now()>.json`, then call
`fs.writeFileSync(path.join(folderPath, fileName))` — with NO data
argument. `now` stands for `Date.now()`. -/
def makeSnapshot (db : Database) (fs : FS) (folderPath : String) (now : Nat) : FS × Except JsError Unit :=
  let fs1 := if fs.existsSync folderPath then fs else fs.mkdirSync folderPath
  let splitName := splitOnChar '.' (basename db.jsonFilePath).toList
  let databaseName := joinSep "." (splitName.dropLast.map List.asString)
  let fileName := "snapshot-" ++ databaseName ++ "-" ++ toString now ++ ".json"
  fs1.writeFileSync (joinPath folderPath fileName) none

/-- `set(key, value)` (line 127): mutate the mirror, then save. -/
def set (db : Database) (fs : FS) (key : String) (value : Value) :
    (Database × FS) × Except JsError Unit :=
  let db2 := db.assignData key value
  let (fs2, r) := db2.saveDataToFile fs
  ((db2, fs2), r)

/-- `update(key, callback)` (line 148): read the current value (possibly
`undefined`), apply the callback, and `set` the result. A callback throw
propagates before any mutation. -/
def update (db : Database) (fs : FS) (key : String)
    (callback : Value → Except JsError Value) : (Database × FS) × Except JsError Unit :=
  let value := db.get key
  match callback value with
  | Except.error e => ((db, fs), Except.error e)
  | Except.ok newValue => db.set fs key newValue

/-- `updateLocal(key, callback)` (line 162): like `update` but ends in
`setLocal`; no filesystem interaction at all. -/
def updateLocal (db : Database) (key : String)
    (callback : Value → Except JsError Value) : Database × Except JsError Unit :=
  let value := db.get key
  match callback value with
  | Except.error e => (db, Except.error e)
  | Except.ok newValue => (db.setLocal key newValue, Except.ok ())

/-- The entry removal `delete this.data[key]` shared by `delete` and
`deleteLocal`. -/
def removeData (db : Database) (key : String) : Database :=
  match db.data with
  | Value.vObj entries => { db with data := Value.vObj (removeA entries key) }
  | other => { db with data := other }

/-- `delete(key)` (line 172): remove the entry, then save. -/
def delete (db : Database) (fs : FS) (key : String) : (Database × FS) × Except JsError Unit :=
  let db2 := db.removeData key
  let (fs2, r) := db2.saveDataToFile fs
  ((db2, fs2), r)

/-- `deleteLocal(key)` (line 182): remove the entry from the mirror only. -/
def deleteLocal (db : Database) (key : String) : Database :=
  db.removeData key

/-- `deleteAll()` (line 189): replace the mirror with `{}`, then save. -/
def deleteAll (db : Database) (fs : FS) : (Database × FS) × Except JsError Unit :=
  let db2 := { db with data := Value.vObj [] }
  let (fs2, r) := db2.saveDataToFile fs
  ((db2, fs2), r)

/-- `deleteAllLocal()` (line 197): replace the mirror with `{}` only. -/
def deleteAllLocal (db : Database) : Database :=
  { db with data := Value.vObj [] }

/-- `array(outputType)` (line 218): the own entries of the mirror as keys,
values, or key/value pair objects, in insertion order. The JS `switch`
compares `outputType` with the string literals by strict equality. -/
def array (db : Database) (outputType : Value) : Value :=
  let entries := match db.data with
    | Value.vObj es => es
    | _ => []
  match outputType with
  | Value.vStr "keys" => Value.vArr (entries.map (fun e => Value.vStr e.1))
  | Value.vStr "values" => Value.vArr (entries.map (fun e => e.2))
  | _ => Value.vArr (entries.map (fun e =>
      Value.vObj [("key", Value.vStr e.1), ("value", e.2)]))

end Database

/-- The process-wide state: the module-level `instances` registry mapping a
file path to a store, the live store objects themselves (`stores`, keyed by
an allocation id so that aliasing through the registry is observable), and
the filesystem. `setInterval` timers are started but never fire during the
synchronous operations the claims describe, so pending timers are not
recorded. -/
structure Process where
  instances : List (String × Nat)
  stores : List (Nat × Database)
  nextId : Nat
  fs : FS

/-- The tail of the constructor (src/index.js lines 62-72) that runs after
the snapshot-option block: `this.data = {}`, then create the backing file
with contents `{}` (creating one parent directory level if needed) or load
the existing file via `fetchDataFromFile`. The registered store `st` is
updated in the heap at each step, so the heap state is faithful even when
`fetchDataFromFile` throws. -/
def finishInit (p : Process) (id : Nat) (st : Database) : Process × Except JsError Nat :=
  let st1 := { st with data := Value.vObj [] }
  if p.fs.existsSync st1.jsonFilePath then
    let (st2, r) := st1.fetchDataFromFile p.fs
    ({ p with stores := setA p.stores id st2 },
      match r with
      | Except.ok _ => Except.ok id
      | Except.error e => Except.error e)
  else
    let parent := dirname st1.jsonFilePath
    let fs1 := if p.fs.existsSync parent then p.fs else p.fs.mkdirSync parent
    let (fs2, r) := fs1.writeFileSync st1.jsonFilePath (some "\x7b\x7d")
    ({ p with stores := setA p.stores id st1, fs := fs2 },
      match r with
      | Except.ok _ => Except.ok id
      | Except.error e => Except.error e)

/-- The defaulting `this.options = options || {}` (line 43). -/
def normOpts (options : Value) : Value :=
  if truthy options then options else Value.vObj []

/-- The body of `new Database(filePath, options)` once `filePath` is known
to be a nonempty string (src/index.js lines 26-72). Ordering is faithful to
the source: the instance registry check, then registration of `this`
(line 37) — which happens BEFORE the snapshot options are validated — then
the snapshot-option checks, then `finishInit`. A throw in the
snapshot-option checks therefore leaves the partially constructed store
registered, with `this.data` still `undefined`. -/
def constructAt (p : Process) (fp : String) (options : Value) : Process × Except JsError Nat :=
  match lookupA p.instances fp with
  | some id => (p, Except.ok id)
  | none =>
    let id := p.nextId
    let opts := normOpts options
    let st : Database := { jsonFilePath := fp, options := opts, data := Value.vUndef }
    let p1 : Process :=
      { p with
        instances := setA p.instances fp id
        stores := setA p.stores id st
        nextId := id + 1 }
    let snaps := memberGet opts "snapshots"
    if truthy snaps && truthy (memberGet snaps "enabled") then
      let spath := memberGet snaps "path"
      if !(truthy spath && (jsTypeof spath == "string")) then
        (p1, Except.error (JsError.err "Provide a valid file path for database snapshots"))
      else if jsTypeof (memberGet snaps "interval") != "number" then
        (p1, Except.error (JsError.err "Provide the interval in milliseconds for snapshot creation"))
      else
        let sp := match spath with
          | Value.vStr s => s
          | _ => ""
        let p2 := if p1.fs.existsSync sp then p1
          else { p1 with fs := p1.fs.mkdirSync sp }
        finishInit p2 id st
    else
      finishInit p1 id st

/-- `new Database(filePath, options)` (src/index.js line 23): the guard
`if (!(filePath && typeof filePath === "string")) throw ...` rejects every
non-string and the empty string before anything else happens; then
`constructAt` runs. The result carries the final process state (faithful
even on a throw) and either the id of the returned store or the error. -/
def constructDB (p : Process) (filePath options : Value) : Process × Except JsError Nat :=
  match filePath with
  | Value.vStr fp =>
    if fp = "" then
      (p, Except.error (JsError.err "Provide a valid file path for the database"))
    else constructAt p fp options
  | _ => (p, Except.error (JsError.err "Provide a valid file path for the database"))

/-- A sequence of deferred writes: `db.setLocal(k, v)` for each pair in
order. -/
def setLocalList (db : Database) (kvs : List (String × Value)) : Database :=
  kvs.foldl (fun d kv => d.setLocal kv.1 kv.2) db

/-- The same sequence through the immediate variant: `db.set(k, v)` for each
pair in order, threading the filesystem. -/
def setList (db : Database) (fs : FS) (kvs : List (String × Value)) : Database × FS :=
  kvs.foldl (fun s kv => (Database.set s.1 s.2 kv.1 kv.2).1) (db, fs)

/-- The text `saveDataToFile` writes for a mirror `v` (total helper; for an
object mirror `jsonStringify2` always succeeds, see
`jsonStringify2_vObj_isSome`). -/
def savedText (v : Value) : String :=
  (jsonStringify2 v).getD ""

/-! Concrete fixtures shared by several theorems below. -/

/-- A store on backing file "db.json" with options `{}` and mirror
`{"a": 1}`. -/
def exampleDb : Database :=
  { jsonFilePath := "db.json", options := Value.vObj [], data := Value.vObj [("a", Value.vNum 1)] }

/-- A filesystem in which "db.json" holds the serialized mapping
`{"a":1}` and the directory "backups" exists. -/
def exampleFS : FS :=
  { files := [("db.json", "\x7b\"a\":1\x7d")], dirs := ["backups"], writeCount := 0 }

/-- A filesystem in which "db.json" holds a top-level JSON array. -/
def arrFS : FS :=
  { files := [("db.json", "[1,2]")], dirs := [], writeCount := 0 }

/-- A process with an empty registry. -/
def emptyProc : Process :=
  { instances := [], stores := [], nextId := 0, fs := exampleFS }

/-- Construction options enabling snapshots but omitting the snapshot
path. -/
def badSnapOpts : Value :=
  Value.vObj [("snapshots", Value.vObj [("enabled", Value.vBool true)])]

/-- A process in which a store for "db.json" (id 0) is already
registered. -/
def registeredProc : Process :=
  { instances := [("db.json", 0)], stores := [(0, exampleDb)], nextId := 1, fs := exampleFS }

/-! Helper lemmas about the association-list operations and the store
operations. -/

theorem lookupA_setA_self {α β : Type} [DecidableEq α] (l : List (α × β)) (k : α) (v : β) :
    lookupA (setA l k v) k = some v := by
  induction l with
  | nil => simp [setA, lookupA]
  | cons hd tl ih =>
    obtain ⟨k2, w⟩ := hd
    by_cases h : k2 = k <;> simp [setA, h, lookupA, ih]

theorem setA_setA_same {α β : Type} [DecidableEq α] (l : List (α × β)) (k : α) (v1 v2 : β) :
    setA (setA l k v1) k v2 = setA l k v2 := by
  induction l with
  | nil => simp [setA]
  | cons hd tl ih =>
    obtain ⟨k2, w⟩ := hd
    by_cases h : k2 = k <;> simp [setA, h, ih]

theorem assignData_jsonFilePath (db : Database) (k : String) (v : Value) :
    (db.assignData k v).jsonFilePath = db.jsonFilePath := by
  unfold Database.assignData
  cases db.data <;> rfl

theorem assignData_options (db : Database) (k : String) (v : Value) :
    (db.assignData k v).options = db.options := by
  unfold Database.assignData
  cases db.data <;> rfl

theorem assignData_data_obj (db : Database) (es : List (String × Value)) (k : String) (v : Value)
    (h : db.data = Value.vObj es) :
    (db.assignData k v).data = Value.vObj (setA es k v) := by
  unfold Database.assignData
  rw [h]

theorem jsonStringify2_vObj_isSome (es : List (String × Value)) :
    (jsonStringify2 (Value.vObj es)).isSome = true := by
  simp only [jsonStringify2, jStr]
  split
  · rfl
  · split <;> simp_all

theorem save_vObj (db : Database) (fs : FS) (es : List (String × Value))
    (h : db.data = Value.vObj es) :
    db.saveDataToFile fs =
      ({ fs with
          files := setA fs.files db.jsonFilePath (savedText db.data)
          writeCount := fs.writeCount + 1 }, Except.ok ()) := by
  obtain ⟨out, hout⟩ := Option.isSome_iff_exists.mp (h ▸ jsonStringify2_vObj_isSome es)
  unfold Database.saveDataToFile FS.writeFileSync savedText
  rw [hout]
  rfl

theorem set_mirror (db : Database) (fs : FS) (k : String) (v : Value) :
    (Database.set db fs k v).1.1 = db.setLocal k v := by
  unfold Database.set
  rcases h : (db.assignData k v).saveDataToFile fs with ⟨fs2, r⟩
  simp only [Database.setLocal, h]

theorem delete_mirror (db : Database) (fs : FS) (k : String) :
    (Database.delete db fs k).1.1 = db.deleteLocal k := by
  unfold Database.delete
  rcases h : (db.removeData k).saveDataToFile fs with ⟨fs2, r⟩
  simp only [Database.deleteLocal, h]

theorem deleteAll_mirror (db : Database) (fs : FS) :
    (Database.deleteAll db fs).1.1 = db.deleteAllLocal := by
  unfold Database.deleteAll
  rcases h : Database.saveDataToFile { db with data := Value.vObj [] } fs with ⟨fs2, r⟩
  simp only [Database.deleteAllLocal, h]

theorem setLocalList_spec (kvs : List (String × Value)) :
    ∀ (db : Database) (es : List (String × Value)), db.data = Value.vObj es →
      (setLocalList db kvs).jsonFilePath = db.jsonFilePath
      ∧ (setLocalList db kvs).data =
          Value.vObj (kvs.foldl (fun e kv => setA e kv.1 kv.2) es) := by
  induction kvs with
  | nil => intro db es h; exact ⟨rfl, h⟩
  | cons kv rest ih =>
    intro db es h
    have h1 : (db.setLocal kv.1 kv.2).data = Value.vObj (setA es kv.1 kv.2) :=
      assignData_data_obj db es kv.1 kv.2 h
    obtain ⟨ha, hb⟩ := ih (db.setLocal kv.1 kv.2) _ h1
    refine ⟨?_, ?_⟩
    · show (setLocalList (db.setLocal kv.1 kv.2) rest).jsonFilePath = db.jsonFilePath
      rw [ha]
      exact assignData_jsonFilePath db kv.1 kv.2
    · show (setLocalList (db.setLocal kv.1 kv.2) rest).data = _
      rw [hb]
      rfl

theorem setList_run (kvs : List (String × Value)) :
    ∀ (db : Database) (fs : FS) (es : List (String × Value)),
      db.data = Value.vObj es → kvs ≠ [] →
      (setList db fs kvs).1 = setLocalList db kvs
      ∧ (setList db fs kvs).2.files =
          setA fs.files db.jsonFilePath (savedText (setLocalList db kvs).data)
      ∧ (setList db fs kvs).2.writeCount = fs.writeCount + kvs.length := by
  induction kvs with
  | nil => intro _ _ _ _ hne; exact absurd rfl hne
  | cons kv rest ih =>
    intro db fs es hobj _
    have hdata1 : (db.setLocal kv.1 kv.2).data = Value.vObj (setA es kv.1 kv.2) :=
      assignData_data_obj db es kv.1 kv.2 hobj
    have hpath1 : (db.setLocal kv.1 kv.2).jsonFilePath = db.jsonFilePath :=
      assignData_jsonFilePath db kv.1 kv.2
    have hsave := save_vObj (db.setLocal kv.1 kv.2) fs _ hdata1
    have hstep : (Database.set db fs kv.1 kv.2).1 =
        (db.setLocal kv.1 kv.2,
          { fs with
              files := setA fs.files (db.setLocal kv.1 kv.2).jsonFilePath
                (savedText (db.setLocal kv.1 kv.2).data)
              writeCount := fs.writeCount + 1 }) := by
      unfold Database.set
      rw [show Database.setLocal db kv.1 kv.2 = db.assignData kv.1 kv.2 from rfl] at hsave
      simp only [hsave]
      rfl
    have hlist : setList db fs (kv :: rest) =
        setList (db.setLocal kv.1 kv.2)
          ({ fs with
              files := setA fs.files (db.setLocal kv.1 kv.2).jsonFilePath
                (savedText (db.setLocal kv.1 kv.2).data)
              writeCount := fs.writeCount + 1 }) rest := by
      show List.foldl _ ((Database.set db fs kv.1 kv.2).1) rest = _
      rw [hstep]
      rfl
    have hloc : setLocalList db (kv :: rest) = setLocalList (db.setLocal kv.1 kv.2) rest := rfl
    cases rest with
    | nil =>
      rw [hlist, hloc]
      refine ⟨rfl, ?_, ?_⟩
      · show setA fs.files (db.setLocal kv.1 kv.2).jsonFilePath _ = _
        rw [hpath1]
        rfl
      · rfl
    | cons kv2 rest2 =>
      obtain ⟨iha, ihb, ihc⟩ :=
        ih (db.setLocal kv.1 kv.2)
          ({ fs with
              files := setA fs.files (db.setLocal kv.1 kv.2).jsonFilePath
                (savedText (db.setLocal kv.1 kv.2).data)
              writeCount := fs.writeCount + 1 })
          (setA es kv.1 kv.2) hdata1 (fun h => nomatch h)
      rw [hlist, hloc]
      refine ⟨iha, ?_, ?_⟩
      · rw [ihb]
        show setA (setA fs.files _ _) _ _ = _
        rw [hpath1, setA_setA_same]
      · rw [ihc]
        show fs.writeCount + 1 + (kv2 :: rest2).length = fs.writeCount + (kv :: kv2 :: rest2).length
        simp [List.length]
        omega

/-! The claims. -/

/-- C1: the claim says `makeSnapshot(d)` creates exactly one new file in `d`
named `snapshot-<base name without extension>-<epoch millis>.json` whose
contents equal the current backing-file bytes. In the code the final call is
`fs.writeFileSync(path.join(folderPath, fileName))` with no data argument,
so no snapshot content is ever written: on the concrete store below (backing
file "db.json" with bytes for the mapping a = 1, snapshot directory
"backups", `Date.now()` = 14278912741) the operation throws
ERR_INVALID_ARG_TYPE, the file table is unchanged, and in particular the
file "backups/snapshot-db-14278912741.json" that the claim describes does
not exist afterwards. -/
theorem makeSnapshot_writes_no_copy :
    FS.readFileSync exampleFS "db.json" = some "\x7b\"a\":1\x7d"
    ∧ (Database.makeSnapshot exampleDb exampleFS "backups" 14278912741).1.files = exampleFS.files
    ∧ (Database.makeSnapshot exampleDb exampleFS "backups" 14278912741).2 =
        Except.error (JsError.typeError
          "The data argument must be of type string or an instance of Buffer, TypedArray, or DataView")
    ∧ lookupA (Database.makeSnapshot exampleDb exampleFS "backups" 14278912741).1.files
        "backups/snapshot-db-14278912741.json" = none :=
  ⟨rfl, rfl, rfl, rfl⟩

/-- C2 counterexample: the claim says a backing file holding a top-level
JSON array makes `load()` fail with `FormatError`. On the concrete
filesystem where "db.json" holds "[1,2]", `fetchDataFromFile` succeeds
(the `typeof` check accepts arrays) and replaces the mirror with the
array. -/
theorem load_accepts_topLevel_array :
    FS.readFileSync arrFS "db.json" = some "[1,2]"
    ∧ jsonParse "[1,2]" = Except.ok (Value.vArr [Value.vNum 1, Value.vNum 2])
    ∧ Database.fetchDataFromFile exampleDb arrFS =
        ({ exampleDb with data := Value.vArr [Value.vNum 1, Value.vNum 2] }, Except.ok ()) :=
  ⟨rfl, rfl, rfl⟩

/-- C2 amended: when the contents of the backing file deserialize to `v`,
`load()` (`fetchDataFromFile`) succeeds — replacing the mirror wholesale
with `v` — exactly when `typeof v` is "object", and otherwise fails with
the `FormatError` ("Data is not a valid object"). String, number and
boolean scalars have `typeof ≠ "object"` and therefore fail, but a JSON
array (and `null`) has `typeof = "object"` and is accepted. -/
theorem fetchDataFromFile_typeof_object_check (db : Database) (fs : FS) (s : String) (v : Value)
    (hread : fs.readFileSync db.jsonFilePath = some s)
    (hparse : jsonParse s = Except.ok v) :
    (jsTypeof v = "object" →
      db.fetchDataFromFile fs = ({ db with data := v }, Except.ok ()))
    ∧ (jsTypeof v ≠ "object" →
      db.fetchDataFromFile fs = (db, Except.error (JsError.err "Data is not a valid object")))
    ∧ (∀ elems, v = Value.vArr elems → jsTypeof v = "object")
    ∧ (v = Value.vNull → jsTypeof v = "object")
    ∧ (∀ s2, v = Value.vStr s2 → jsTypeof v ≠ "object")
    ∧ (∀ n, v = Value.vNum n → jsTypeof v ≠ "object")
    ∧ (∀ b, v = Value.vBool b → jsTypeof v ≠ "object") := by
  refine ⟨?_, ?_, ?_, ?_, ?_, ?_, ?_⟩
  · intro h
    simp [Database.fetchDataFromFile, hread, hparse, h]
  · intro h
    simp [Database.fetchDataFromFile, hread, hparse, h]
  · rintro elems rfl; rfl
  · rintro rfl; rfl
  · rintro s2 rfl; simp [jsTypeof]
  · rintro n rfl; simp [jsTypeof]
  · rintro b rfl; simp [jsTypeof]

/-- Witness for C2: the hypotheses of
`fetchDataFromFile_typeof_object_check` hold at the concrete store
`exampleDb` over `arrFS` (contents "[1,2]"), and the "object" branch
applies. -/
theorem fetchDataFromFile_typeof_object_check_witness :
    Database.fetchDataFromFile exampleDb arrFS =
      ({ exampleDb with data := Value.vArr [Value.vNum 1, Value.vNum 2] }, Except.ok ()) :=
  (fetchDataFromFile_typeof_object_check exampleDb arrFS "[1,2]"
    (Value.vArr [Value.vNum 1, Value.vNum 2]) rfl rfl).1 rfl

/-- C4: the claim says a construction request with `forceNew` set returns a
new, independent store. The constructor never reads `forceNew`: on a
process in which a store (id 0) for "db.json" is registered, construction
with `forceNew: true` returns the registered store id 0 and changes
nothing. -/
theorem constructor_ignores_forceNew :
    lookupA registeredProc.instances "db.json" = some 0
    ∧ constructDB registeredProc (Value.vStr "db.json")
        (Value.vObj [("forceNew", Value.vBool true)]) = (registeredProc, Except.ok 0) :=
  ⟨rfl, rfl⟩

/-- C5: the claim says `save()` serializes compactly when the `indented`
option is unset. `saveDataToFile` always calls
`JSON.stringify(this.data, null, 2)`: on the concrete store below, whose
options object has no truthy `indented` member, the bytes written are the
pretty-printed form with indent width 2, which differs from the compact
serialization of the same mirror. -/
theorem save_always_pretty_prints :
    truthy (memberGet exampleDb.options "indented") = false
    ∧ (Database.saveDataToFile exampleDb exampleFS).1.files =
        [("db.json", "\x7b\n  \"a\": 1\n\x7d")]
    ∧ (Database.saveDataToFile exampleDb exampleFS).2 = Except.ok ()
    ∧ jsonStringifyCompact exampleDb.data = some "\x7b\"a\":1\x7d"
    ∧ ("\x7b\n  \"a\": 1\n\x7d" : String) ≠ "\x7b\"a\":1\x7d" :=
  ⟨rfl, rfl, rfl, rfl, by decide⟩

/-- C9: `get` and `has` disagree on inherited keys. The key "toString" was
never stored in the mirror of `exampleDb` (its own entries are just a = 1), yet
`get "toString"` returns the inherited `Object.prototype.toString` function
— a non-absent value — while `has "toString"` is false. -/
theorem get_reads_inherited_where_has_is_false :
    lookupA [("a", Value.vNum 1)] "toString" = none
    ∧ exampleDb.data = Value.vObj [("a", Value.vNum 1)]
    ∧ Database.get exampleDb "toString" = Value.vFun "toString"
    ∧ Database.get exampleDb "toString" ≠ Value.vUndef
    ∧ Database.has exampleDb "toString" = false :=
  by
  refine ⟨rfl, rfl, rfl, ?_, rfl⟩
  intro h
  exact nomatch (show Value.vFun "toString" = Value.vUndef from h)

/-- C10: if the callback throws when applied to the current value of the
key, `update` and `updateLocal` propagate the error and leave the mirror
and the filesystem exactly as they were: the mutation and the save are
never reached. -/
theorem update_throwing_callback_mutates_nothing (db : Database) (fs : FS) (key : String)
    (callback : Value → Except JsError Value) (e : JsError)
    (hthrow : callback (db.get key) = Except.error e) :
    db.update fs key callback = ((db, fs), Except.error e)
    ∧ db.updateLocal key callback = (db, Except.error e) := by
  constructor
  · unfold Database.update
    simp only [hthrow]
  · unfold Database.updateLocal
    simp only [hthrow]

/-- Witness for C10: a callback that always throws "boom", applied on the
concrete store `exampleDb`. -/
theorem update_throwing_callback_mutates_nothing_witness :
    Database.update exampleDb exampleFS "a" (fun _ => Except.error (JsError.err "boom")) =
      ((exampleDb, exampleFS), Except.error (JsError.err "boom"))
    ∧ Database.updateLocal exampleDb "a" (fun _ => Except.error (JsError.err "boom")) =
      (exampleDb, Except.error (JsError.err "boom")) :=
  update_throwing_callback_mutates_nothing exampleDb exampleFS "a"
    (fun _ => Except.error (JsError.err "boom")) (JsError.err "boom") rfl

/-- C3 counterexample: the claim says a failed construction leaves no
registry entry. Constructing over an empty registry with path "db.json" and
snapshots enabled but no snapshot path throws the snapshot
`InvalidArgument`, yet the registry now maps "db.json" to the partially
constructed store (mirror still `undefined`), and a later construction with
the same path returns that broken instance. -/
theorem constructor_snapshot_failure_leaves_registry_entry :
    (constructDB emptyProc (Value.vStr "db.json") badSnapOpts).2 =
      Except.error (JsError.err "Provide a valid file path for database snapshots")
    ∧ lookupA (constructDB emptyProc (Value.vStr "db.json") badSnapOpts).1.instances
        "db.json" = some 0
    ∧ constructDB (constructDB emptyProc (Value.vStr "db.json") badSnapOpts).1
        (Value.vStr "db.json") (Value.vObj []) =
        ((constructDB emptyProc (Value.vStr "db.json") badSnapOpts).1, Except.ok 0)
    ∧ lookupA (constructDB emptyProc (Value.vStr "db.json") badSnapOpts).1.stores 0 =
        some { jsonFilePath := "db.json", options := badSnapOpts, data := Value.vUndef } :=
  ⟨rfl, rfl, rfl, rfl⟩

/-- C3 amended: construction fails synchronously with `InvalidArgument` in
all the cases the claim lists, and an empty or non-string file path indeed
leaves the process state untouched; but when the file path is a fresh
nonempty string and the failure comes from the snapshot options
(missing/non-string snapshot path, or non-numeric interval), the partially
constructed store — mirror still `undefined` — has already been registered
under the path before the validation runs (line 37 precedes lines 47-48),
so later constructions with that path return the broken instance. -/
theorem constructor_invalidArgument_registration (p : Process) (v : Value) (fp : String)
    (options : Value) (hfp : fp ≠ "") (hfree : lookupA p.instances fp = none)
    (hsnap : (truthy (memberGet (normOpts options) "snapshots")
        && truthy (memberGet (memberGet (normOpts options) "snapshots") "enabled")) = true) :
    ((truthy v && (jsTypeof v == "string")) = false →
      constructDB p v options =
        (p, Except.error (JsError.err "Provide a valid file path for the database")))
    ∧ (((!(truthy (memberGet (memberGet (normOpts options) "snapshots") "path")
          && (jsTypeof (memberGet (memberGet (normOpts options) "snapshots") "path") == "string"))) = true
        ∨ jsTypeof (memberGet (memberGet (normOpts options) "snapshots") "interval") ≠ "number") →
      (∃ msg, (constructDB p (Value.vStr fp) options).2 = Except.error (JsError.err msg))
      ∧ lookupA (constructDB p (Value.vStr fp) options).1.instances fp = some p.nextId
      ∧ lookupA (constructDB p (Value.vStr fp) options).1.stores p.nextId =
          some { jsonFilePath := fp, options := normOpts options, data := Value.vUndef }) := by
  constructor
  · intro hv
    cases v with
    | vStr s =>
      have hs : s = "" := by
        by_cases hne : s = ""
        · exact hne
        · simp [truthy, jsTypeof, hne] at hv
      unfold constructDB
      simp [hs]
    | vUndef => rfl
    | vNull => rfl
    | vBool b => cases b <;> rfl
    | vNum n => rfl
    | vArr elems => rfl
    | vObj entries => rfl
    | vFun name => rfl
  · intro hbad
    have hcd : constructDB p (Value.vStr fp) options = constructAt p fp options := by
      simp [constructDB, hfp]
    rw [hcd]
    unfold constructAt
    rw [hfree]
    simp only [hsnap]
    rcases hbad with h1 | h2
    · simp only [h1]
      exact ⟨⟨_, rfl⟩, lookupA_setA_self p.instances fp p.nextId,
        lookupA_setA_self p.stores p.nextId _⟩
    · cases hpath : (!(truthy (memberGet (memberGet (normOpts options) "snapshots") "path")
          && (jsTypeof (memberGet (memberGet (normOpts options) "snapshots") "path") == "string"))) with
      | true =>
        simp only [hpath]
        exact ⟨⟨_, rfl⟩, lookupA_setA_self p.instances fp p.nextId,
          lookupA_setA_self p.stores p.nextId _⟩
      | false =>
        have hint : (jsTypeof (memberGet (memberGet (normOpts options) "snapshots") "interval")
            != "number") = true := by
          simp [bne, h2]
        simp only [hpath, hint]
        exact ⟨⟨_, rfl⟩, lookupA_setA_self p.instances fp p.nextId,
          lookupA_setA_self p.stores p.nextId _⟩

/-- Witness for C3: over the empty registry, the non-string path `5` is
rejected with no state change, and the path "db.json" with
snapshots-enabled-but-no-snapshot-path options errors while registering the
broken store. -/
theorem constructor_invalidArgument_registration_witness :
    (constructDB emptyProc (Value.vNum 5) badSnapOpts =
      (emptyProc, Except.error (JsError.err "Provide a valid file path for the database")))
    ∧ ((∃ msg, (constructDB emptyProc (Value.vStr "db.json") badSnapOpts).2 =
          Except.error (JsError.err msg))
      ∧ lookupA (constructDB emptyProc (Value.vStr "db.json") badSnapOpts).1.instances
          "db.json" = some emptyProc.nextId
      ∧ lookupA (constructDB emptyProc (Value.vStr "db.json") badSnapOpts).1.stores
          emptyProc.nextId =
          some { jsonFilePath := "db.json", options := normOpts badSnapOpts,
                 data := Value.vUndef }) := by
  obtain ⟨h1, h2⟩ := constructor_invalidArgument_registration emptyProc (Value.vNum 5)
    "db.json" badSnapOpts (by decide) rfl rfl
  exact ⟨h1 rfl, h2 (Or.inl rfl)⟩

/-- C6: when a store for the path is already registered and the caller does
not get a fresh instance (which is always: there is no working opt-out),
construction returns the very same registered store id with the process
state unchanged — so both references alias one heap object and every
mutation through one is immediately seen through the other — and the options passed on the later call
have no effect on the result: the registered store keeps the options from
its first construction. -/
theorem registry_shares_instance_and_ignores_options (p : Process) (fp : String) (id : Nat)
    (options : Value) (hfp : fp ≠ "") (hreg : lookupA p.instances fp = some id) :
    constructDB p (Value.vStr fp) options = (p, Except.ok id)
    ∧ ∀ options2 : Value,
        constructDB p (Value.vStr fp) options2 = constructDB p (Value.vStr fp) options := by
  have h : ∀ o : Value, constructDB p (Value.vStr fp) o = (p, Except.ok id) := by
    intro o
    have hcd : constructDB p (Value.vStr fp) o = constructAt p fp o := by
      simp [constructDB, hfp]
    rw [hcd]
    unfold constructAt
    rw [hreg]
  exact ⟨h options, fun o2 => (h o2).trans (h options).symm⟩

/-- Witness for C6: on the concrete process with "db.json" registered at
id 0, construction with some different options returns the registered
store unchanged. -/
theorem registry_shares_instance_and_ignores_options_witness :
    constructDB registeredProc (Value.vStr "db.json")
      (Value.vObj [("indented", Value.vBool true)]) = (registeredProc, Except.ok 0) :=
  (registry_shares_instance_and_ignores_options registeredProc "db.json" 0
    (Value.vObj [("indented", Value.vBool true)]) (by decide) rfl).1

/-- C7: a sequence of deferred writes (`setLocal` for each pair of `kvs`)
followed by one `save()` performs exactly one file write (the write counter
rises by exactly 1) and leaves the backing file — and the mirror — in the
same state as the same sequence through the immediate `set` variant; and
each deferred variant performs exactly the mirror mutation of its immediate
counterpart (the immediate variant is the deferred one plus the save), the
deferred variants themselves taking no filesystem argument at all. -/
theorem deferred_batching_equals_immediate (db : Database) (fs : FS)
    (es kvs : List (String × Value)) (hobj : db.data = Value.vObj es) (hne : kvs ≠ []) :
    setLocalList db kvs = (setList db fs kvs).1
    ∧ ((setLocalList db kvs).saveDataToFile fs).1.writeCount = fs.writeCount + 1
    ∧ ((setLocalList db kvs).saveDataToFile fs).1.files = (setList db fs kvs).2.files
    ∧ ((setLocalList db kvs).saveDataToFile fs).2 = Except.ok ()
    ∧ (∀ k v2, (db.set fs k v2).1.1 = db.setLocal k v2)
    ∧ (∀ k, (db.delete fs k).1.1 = db.deleteLocal k)
    ∧ (db.deleteAll fs).1.1 = db.deleteAllLocal := by
  obtain ⟨r1, r2, r3⟩ := setList_run kvs db fs es hobj hne
  obtain ⟨pa, pdata⟩ := setLocalList_spec kvs db es hobj
  have hsave := save_vObj (setLocalList db kvs) fs _ pdata
  refine ⟨r1.symm, ?_, ?_, ?_, fun k v2 => set_mirror db fs k v2,
    fun k => delete_mirror db fs k, deleteAll_mirror db fs⟩
  · rw [hsave]
  · rw [hsave, r2, pa]
  · rw [hsave]

/-- Witness for C7: two deferred writes on the concrete store `exampleDb`
followed by one save behave like two immediate writes. -/
theorem deferred_batching_equals_immediate_witness :
    setLocalList exampleDb [("x", Value.vNum 2), ("a", Value.vNum 3)] =
      (setList exampleDb exampleFS [("x", Value.vNum 2), ("a", Value.vNum 3)]).1
    ∧ ((setLocalList exampleDb [("x", Value.vNum 2), ("a", Value.vNum 3)]).saveDataToFile
        exampleFS).1.writeCount = exampleFS.writeCount + 1
    ∧ ((setLocalList exampleDb [("x", Value.vNum 2), ("a", Value.vNum 3)]).saveDataToFile
        exampleFS).1.files =
        (setList exampleDb exampleFS [("x", Value.vNum 2), ("a", Value.vNum 3)]).2.files :=
  have h := deferred_batching_equals_immediate exampleDb exampleFS [("a", Value.vNum 1)]
    [("x", Value.vNum 2), ("a", Value.vNum 3)] rfl (fun hh => nomatch hh)
  ⟨h.1, h.2.1, h.2.2.1⟩

/-- C8: on an object mirror, `has(k)` is true exactly when `k` is an own
entry of the mirror; a key that is only an inherited prototype property is
not reported; after `set(k, null)` (or even `set(k, undefined)`) the key is
an own entry so `has(k)` is true; and after `deleteAll()` the mirror is the
empty mapping so `has` is false for every key. -/
theorem has_is_own_entry_test (db : Database) (es : List (String × Value)) (fs : FS)
    (key : String) (hobj : db.data = Value.vObj es) :
    (db.has key = true ↔ (lookupA es key).isSome = true)
    ∧ (key ∈ objectPrototypeKeys → lookupA es key = none → db.has key = false)
    ∧ (db.set fs key Value.vNull).1.1.has key = true
    ∧ (db.set fs key Value.vUndef).1.1.has key = true
    ∧ (∀ k2 : String, (db.deleteAll fs).1.1.has k2 = false) := by
  refine ⟨?_, ?_, ?_, ?_, ?_⟩
  · unfold Database.has hasOwnProp
    rw [hobj]
  · intro _ hnone
    unfold Database.has hasOwnProp
    rw [hobj]
    simp [hnone]
  · rw [set_mirror]
    unfold Database.has hasOwnProp Database.setLocal
    rw [assignData_data_obj db es key Value.vNull hobj]
    simp [lookupA_setA_self]
  · rw [set_mirror]
    unfold Database.has hasOwnProp Database.setLocal
    rw [assignData_data_obj db es key Value.vUndef hobj]
    simp [lookupA_setA_self]
  · intro k2
    rw [deleteAll_mirror]
    rfl

/-- Witness for C8: the concrete store `exampleDb` with own entries
a = 1: `has "a"` is true, the inherited "toString" is not an own entry and
`has "toString"` is false, `has` after `set`/`deleteAll` behaves as
claimed. -/
theorem has_is_own_entry_test_witness :
    (Database.has exampleDb "a" = true ↔
      (lookupA [("a", Value.vNum 1)] "a").isSome = true)
    ∧ Database.has exampleDb "toString" = false
    ∧ (Database.set exampleDb exampleFS "k" Value.vNull).1.1.has "k" = true
    ∧ (Database.deleteAll exampleDb exampleFS).1.1.has "a" = false :=
  have h1 := has_is_own_entry_test exampleDb [("a", Value.vNum 1)] exampleFS "a" rfl
  have h2 := has_is_own_entry_test exampleDb [("a", Value.vNum 1)] exampleFS "toString" rfl
  have h3 := has_is_own_entry_test exampleDb [("a", Value.vNum 1)] exampleFS "k" rfl
  ⟨h1.1, h2.2.1 (by decide) rfl, h3.2.2.1, (h1.2.2.2.2) "a"⟩

end SimpleJsonDb
